import Mathlib

/-!
Shallow embedding of the CRM GraphQL layer
(`crm/models.py` and `crm/schema.py`): entities Customer, Product, Order,
their field validation, and the four mutations `createCustomer`,
`bulkCreateCustomers`, `createProduct`, `createOrder`, together with the
list queries.  Monetary input is an exact decimal (integer coefficient
plus a count of decimal places, the shape Python's `Decimal.as_tuple`
exposes and the decimal validator of the persistence layer inspects);
stored 2-place decimal columns are integer counts of hundredths (cents);
timestamps are naturals; database ids are naturals handed out by the
store.
-/

set_option autoImplicit false

namespace Crm

/-- Persisted Customer row (`models.py` lines 4-14).  `phone` is kept as the
optional string the mutation received; it is validated before save. -/
structure Customer where
  id : Nat
  name : String
  email : String
  phone : Option String
  deriving Repr, DecidableEq

/-- Exact decimal number as parsed by the `graphene.Decimal` scalar
(`schema.py` line 37): the integer coefficient and the number of decimal
places, denoting `coeff / 10 ^ places`.  Python's `Decimal` keeps this
pair, and the decimal validator of the persistence layer counts digits
and places on it rather than on the numeric value. -/
structure Decimal where
  coeff : Int
  places : Nat
  deriving Repr, DecidableEq

/-- Numeric comparison `d <= 0` on a decimal (`schema.py` line 121):
since `10 ^ places` is positive this is a sign test on the coefficient. -/
def Decimal.isNonpos (d : Decimal) : Bool := d.coeff ≤ 0

/-- The stored 2-place column value of a validated decimal, in cents;
meaningful once validation has ensured `places ≤ 2`. -/
def Decimal.toCents (d : Decimal) : Int := d.coeff * (10 : Int) ^ (2 - d.places)

/-- Persisted Product row (`models.py` lines 20-27); `price` in cents. -/
structure Product where
  id : Nat
  name : String
  price : Int
  stock : Int
  deriving Repr, DecidableEq

/-- Persisted Order row (`models.py` lines 33-37).  The many-to-many
association is the list of associated product ids; `order_date` is the
stored timestamp; `total_amount` in cents. -/
structure Order where
  id : Nat
  customerId : Nat
  productIds : List Nat
  total_amount : Int
  order_date : Nat
  deriving Repr, DecidableEq

/-- The entity store: the three persisted collections plus the id
sequences the persistence layer uses for new rows. -/
structure Store where
  customers : List Customer
  products : List Product
  orders : List Order
  nextCustomerId : Nat
  nextProductId : Nat
  nextOrderId : Nat
  deriving Repr, DecidableEq

/-- GraphQL `CustomerInput` (`schema.py` lines 29-32): `phone` optional. -/
structure CustomerInput where
  name : String
  email : String
  phone : Option String
  deriving Repr, DecidableEq

/-- GraphQL `ProductInput` (`schema.py` lines 35-38): `stock` optional. -/
structure ProductInput where
  name : String
  price : Decimal
  stock : Option Int
  deriving Repr, DecidableEq

/-- GraphQL `OrderInput` (`schema.py` lines 41-44): `order_date` optional. -/
structure OrderInput where
  customerId : Nat
  productIds : List Nat
  order_date : Option Nat
  deriving Repr, DecidableEq

/-- First alternative of the phone regex of `models.py` line 11,
`\+?\d{10,15}`: an OPTIONAL plus sign followed by 10 to 15 digits.
`\d` is modelled as an ASCII digit. -/
def plusDigitsAlt (cs : List Char) : Bool :=
  match cs with
  | '+' :: rest => rest.all Char.isDigit && decide (10 ≤ rest.length) && decide (rest.length ≤ 15)
  | _ => cs.all Char.isDigit && decide (10 ≤ cs.length) && decide (cs.length ≤ 15)

/-- Second alternative of the phone regex of `models.py` line 11,
`\d{3}-\d{3}-\d{4}`: three digits, dash, three digits, dash, four
digits. -/
def dashedAlt (cs : List Char) : Bool :=
  match cs with
  | [a, b, c, '-', d, e, f, '-', g, h, i, j] =>
      [a, b, c, d, e, f, g, h, i, j].all Char.isDigit
  | _ => false

/-- Matcher for the full anchored phone pattern of `models.py` line 11,
`^(\+?\d{10,15}|\d{3}-\d{3}-\d{4})$`. -/
def phoneRegexMatch (s : String) : Bool :=
  plusDigitsAlt s.toList || dashedAlt s.toList

/-- Simplified model of the framework-supplied EmailValidator behind
`models.EmailField` (`models.py` line 6); an external collaborator per the
source (Django), abstracted here: exactly one at sign with a nonempty
local part and a dotted nonempty domain.  No claim depends on its exact
judgments beyond accepting ordinary addresses. -/
def emailFormatOk (s : String) : Bool :=
  let cs := s.toList
  cs.count '@' == 1 &&
  (cs.takeWhile (fun c => c ≠ '@')).length > 0 &&
  (let dom := (cs.dropWhile (fun c => c ≠ '@')).drop 1
   dom.length > 0 && dom.contains '.' && dom.head? ≠ some '.' && dom.getLast? ≠ some '.')

/-- Error messages the phone field contributes to `full_clean`
(`models.py` lines 7-14): the column is NOT NULL, blank is allowed, and a
nonempty value must match the regex. -/
def phoneCleanErrors (phone : Option String) : List String :=
  match phone with
  | none => ["This field cannot be null."]
  | some p =>
      if p = "" then []
      else if phoneRegexMatch p then []
      else ["Phone must be in +1234567890 or 123-456-7890 format"]

/-- Error messages `Customer.full_clean()` raises (`models.py` lines 4-14):
blank/length checks on `name`, blank/format checks on `email`, and the
phone checks. -/
def customerCleanErrors (name email : String) (phone : Option String) : List String :=
  (if name = "" then ["This field cannot be blank."]
   else if name.length > 255 then ["Ensure this value has at most 255 characters."]
   else [])
  ++
  (if email = "" then ["This field cannot be blank."]
   else if emailFormatOk email then [] else ["Enter a valid email address."])
  ++ phoneCleanErrors phone

/-- Payload of the `CreateCustomer` mutation (`schema.py` lines 54-56). -/
structure CreateCustomerPayload where
  customer : Option Customer
  message : Option String
  errors : List String
  deriving Repr, DecidableEq

/-- `CreateCustomer.mutate` (`schema.py` lines 58-77): duplicate-email
pre-check, then `full_clean` and save; a `ValidationError` is converted
into the `errors` field. -/
def createCustomer (s : Store) (input : CustomerInput) : Store × CreateCustomerPayload :=
  if s.customers.any (fun c => c.email == input.email) then
    (s, ⟨none, none, ["Email already exists"]⟩)
  else
    let errs := customerCleanErrors input.name input.email input.phone
    if errs = [] then
      let c : Customer := ⟨s.nextCustomerId, input.name, input.email, input.phone⟩
      ({ s with customers := s.customers ++ [c], nextCustomerId := s.nextCustomerId + 1 },
       ⟨some c, some "Customer created successfully", []⟩)
    else
      (s, ⟨none, none, errs⟩)

/-- Payload of the `BulkCreateCustomers` mutation (`schema.py` lines 84-85). -/
structure BulkCreateCustomersPayload where
  customers : List Customer
  errors : List String
  deriving Repr, DecidableEq

/-- The row loop of `BulkCreateCustomers.mutate` (`schema.py` lines 92-107):
each row is checked for a duplicate email against the current store, then
cleaned and saved; a failing row contributes `"<email>: <reason>"` to the
error list and processing continues with the next row. -/
def bulkGo (s : Store) (rows : List CustomerInput) : Store × List Customer × List String :=
  match rows with
  | [] => (s, [], [])
  | r :: rest =>
      if s.customers.any (fun c => c.email == r.email) then
        let t := bulkGo s rest
        (t.1, t.2.1, (r.email ++ ": Email already exists") :: t.2.2)
      else
        let errs := customerCleanErrors r.name r.email r.phone
        if errs = [] then
          let c : Customer := ⟨s.nextCustomerId, r.name, r.email, r.phone⟩
          let s' := { s with customers := s.customers ++ [c], nextCustomerId := s.nextCustomerId + 1 }
          let t := bulkGo s' rest
          (t.1, c :: t.2.1, t.2.2)
        else
          let t := bulkGo s rest
          (t.1, t.2.1, (r.email ++ ": " ++ String.intercalate ", " errs) :: t.2.2)

/-- `BulkCreateCustomers.mutate` (`schema.py` lines 87-109): the whole batch
runs inside one transaction, no row aborts the batch, and the payload
carries the created rows and the per-row errors in input order. -/
def bulkCreateCustomers (s : Store) (input : List CustomerInput) : Store × BulkCreateCustomersPayload :=
  let t := bulkGo s input
  (t.1, ⟨t.2.1, t.2.2⟩)

/-- Payload of the `CreateProduct` mutation (`schema.py` lines 116-117). -/
structure CreateProductPayload where
  product : Option Product
  errors : List String
  deriving Repr, DecidableEq

/-- Error messages `Product.full_clean()` raises (`models.py` lines 20-27):
blank/length checks on `name`; on `price` the `MinValueValidator(0.01)`
and the decimal constraints of `max_digits=10, decimal_places=2` (at most
10 digits in the coefficient, at most 2 decimal places, at most 8 digits
before the point, checked in that order on the coefficient-and-places
pair, the first violation reported); on `stock` the
`PositiveIntegerField` range checks. -/
def productCleanErrors (name : String) (price : Decimal) (stock : Int) : List String :=
  (if name = "" then ["This field cannot be blank."]
   else if name.length > 255 then ["Ensure this value has at most 255 characters."]
   else [])
  ++
  (if price.coeff * 100 < (10 : Int) ^ price.places then
     ["Ensure this value is greater than or equal to 0.01."]
   else [])
  ++
  (if |price.coeff| ≥ (10 : Int) ^ (10 : Nat) then
     ["Ensure that there are no more than 10 digits in total."]
   else if price.places > 2 then
     ["Ensure that there are no more than 2 decimal places."]
   else if |price.coeff| ≥ (10 : Int) ^ (8 + price.places) then
     ["Ensure that there are no more than 8 digits before the decimal point."]
   else [])
  ++
  (if stock < 0 then ["Ensure this value is greater than or equal to 0."]
   else if stock > 2147483647 then ["Ensure this value is less than or equal to 2147483647."]
   else [])

/-- `CreateProduct.mutate` (`schema.py` lines 119-135): explicit price and
stock pre-checks, then `stock or 0`, `full_clean` and save. -/
def createProduct (s : Store) (input : ProductInput) : Store × CreateProductPayload :=
  if input.price.isNonpos then
    (s, ⟨none, ["Price must be positive"]⟩)
  else if (match input.stock with | some st => decide (st < 0) | none => false) then
    (s, ⟨none, ["Stock cannot be negative"]⟩)
  else
    let effStock : Int := (input.stock.getD 0)
    let errs := productCleanErrors input.name input.price effStock
    if errs = [] then
      let p : Product := ⟨s.nextProductId, input.name, input.price.toCents, effStock⟩
      ({ s with products := s.products ++ [p], nextProductId := s.nextProductId + 1 },
       ⟨some p, []⟩)
    else
      (s, ⟨none, errs⟩)

/-- Payload of the `CreateOrder` mutation (`schema.py` lines 142-143). -/
structure CreateOrderPayload where
  order : Option Order
  errors : List String
  deriving Repr, DecidableEq

/-- Products resolved by `Product.objects.filter(id__in=input.product_ids)`
(`schema.py` line 152). -/
def resolvedProducts (s : Store) (input : OrderInput) : List Product :=
  s.products.filter (fun p => input.productIds.contains p.id)

/-- The order date `CreateOrder.mutate` passes to the Order constructor
(`schema.py` line 163): the supplied date, else the current time. -/
def requestedOrderDate (input : OrderInput) (now : Nat) : Nat :=
  input.order_date.getD now

/-- `CreateOrder.mutate` (`schema.py` lines 145-170): resolve the customer,
resolve the product set, reject an empty set, reject a count mismatch,
sum the prices, save the Order row and set the association.  Because
`Order.order_date` is declared `auto_now_add=True` (`models.py` line 37),
the persistence layer stores the CURRENT time in `order_date` on insert,
discarding the value the mutation passed. -/
def createOrder (s : Store) (input : OrderInput) (now : Nat) : Store × CreateOrderPayload :=
  match s.customers.find? (fun c => c.id == input.customerId) with
  | none => (s, ⟨none, ["Invalid customer ID"]⟩)
  | some _ =>
      let products := resolvedProducts s input
      if products = [] then
        (s, ⟨none, ["No valid products found"]⟩)
      else if products.length ≠ input.productIds.length then
        (s, ⟨none, ["One or more product IDs are invalid"]⟩)
      else
        let total := (products.map Product.price).sum
        let o : Order := ⟨s.nextOrderId, input.customerId, products.map Product.id, total, now⟩
        ({ s with orders := s.orders ++ [o], nextOrderId := s.nextOrderId + 1 },
         ⟨some o, []⟩)

/-- Committed store states of `CreateOrder.mutate` in execution order.
The body (`schema.py` lines 160-166) runs `order.save()` and then
`order.products.set(products)` with NO enclosing transaction (unlike
`BulkCreateCustomers.mutate`, line 87, there is no `transaction.atomic`),
so under autocommit each of the two statements commits on its own: first
the Order row with an empty association, then the association rows. -/
def createOrderCommits (s : Store) (input : OrderInput) (now : Nat) : List Store :=
  match s.customers.find? (fun c => c.id == input.customerId) with
  | none => []
  | some _ =>
      let products := resolvedProducts s input
      if products = [] then []
      else if products.length ≠ input.productIds.length then []
      else
        let total := (products.map Product.price).sum
        let oRow : Order := ⟨s.nextOrderId, input.customerId, [], total, now⟩
        let s1 := { s with orders := s.orders ++ [oRow], nextOrderId := s.nextOrderId + 1 }
        let oFull : Order := { oRow with productIds := products.map Product.id }
        let s2 := { s with orders := s.orders ++ [oFull], nextOrderId := s.nextOrderId + 1 }
        [s1, s2]

/-- Query `allCustomers` (`schema.py` lines 181-182). -/
def resolveAllCustomers (s : Store) : List Customer := s.customers

/-- Query `allProducts` (`schema.py` lines 184-185). -/
def resolveAllProducts (s : Store) : List Product := s.products

/-- Query `allOrders` (`schema.py` lines 187-188). -/
def resolveAllOrders (s : Store) : List Order := s.orders

/-- The spec's first phone pattern as written, `+<10-15 digits>`: a plus
sign followed by 10 to 15 digits, the plus sign REQUIRED.  Written from
the spec text, to be compared against `phoneRegexMatch` from the source. -/
def specPhonePlusDigits (s : String) : Bool :=
  match s.toList with
  | '+' :: rest => rest.all Char.isDigit && decide (10 ≤ rest.length) && decide (rest.length ≤ 15)
  | _ => false

/-- Amendment of the spec's first phone pattern: an OPTIONAL plus sign
followed by 10 to 15 digits, i.e. the `\+?\d{10,15}` alternative of the
source regex. -/
def specPhoneOptPlusDigits (s : String) : Bool :=
  plusDigitsAlt s.toList

/-- The spec's second phone pattern, `NNN-NNN-NNNN`, which coincides with
the second alternative of the source regex. -/
def specPhoneDashed (s : String) : Bool :=
  dashedAlt s.toList

/-- A concrete development store: one customer and two products, as the
seeding utility would produce. -/
def demoStore : Store :=
  { customers := [⟨1, "Alice", "alice@x.com", some ""⟩]
    products := [⟨1, "Widget", 1000, 5⟩, ⟨2, "Gadget", 2050, 3⟩]
    orders := []
    nextCustomerId := 2
    nextProductId := 3
    nextOrderId := 1 }

/-! Theorems -/

/-- The source regex alternation is exactly the optional-plus digit
pattern or the dashed pattern. -/
theorem phoneRegexMatch_eq_spec (s : String) :
    phoneRegexMatch s = (specPhoneOptPlusDigits s || specPhoneDashed s) := rfl

/-- C6: for every CustomerInput whose email is already present in the
store, CreateCustomer returns errors = ["Email already exists"], no
customer in the payload, and the stored customer collection is
unchanged. -/
theorem createCustomer_duplicate_email (s : Store) (input : CustomerInput)
    (h : s.customers.any (fun c => c.email == input.email) = true) :
    (createCustomer s input).2.errors = ["Email already exists"] ∧
    (createCustomer s input).2.customer = none ∧
    (createCustomer s input).1 = s := by
  simp [createCustomer, h]

/-- Witness for C6 at a concrete duplicate email. -/
theorem createCustomer_duplicate_email_witness :
    (createCustomer demoStore ⟨"Eve", "alice@x.com", some ""⟩).2.errors = ["Email already exists"] ∧
    (createCustomer demoStore ⟨"Eve", "alice@x.com", some ""⟩).2.customer = none ∧
    (createCustomer demoStore ⟨"Eve", "alice@x.com", some ""⟩).1 = demoStore :=
  createCustomer_duplicate_email demoStore ⟨"Eve", "alice@x.com", some ""⟩ (by decide)

/-- C5 counterexample: the string "1234567890" is nonempty and matches
neither spec pattern as written (no plus sign, no dashes), yet customer
validation accepts it — the source regex makes the plus sign optional —
so the claim that validation fails on every such string is false. -/
theorem phone_validation_claim_cex :
    "1234567890" ≠ "" ∧
    specPhonePlusDigits "1234567890" = false ∧
    specPhoneDashed "1234567890" = false ∧
    phoneCleanErrors (some "1234567890") = [] ∧
    (createCustomer demoStore ⟨"Bob", "bob@x.com", some "1234567890"⟩).2.customer.isSome = true := by
  decide

/-- C5 amended: for every nonempty phone string matching neither the
optional-plus digit pattern nor the dashed pattern, customer validation
fails; and the literal examples behave as the spec lists them. -/
theorem phone_validation_amended (p : String) (hne : p ≠ "")
    (h1 : specPhoneOptPlusDigits p = false) (h2 : specPhoneDashed p = false) :
    phoneCleanErrors (some p) ≠ [] ∧
    (∀ name email, customerCleanErrors name email (some p) ≠ []) ∧
    phoneCleanErrors (some "+1234567890") = [] ∧
    phoneCleanErrors (some "123-456-7890") = [] ∧
    phoneCleanErrors (some "12345") ≠ [] := by
  have hmatch : phoneRegexMatch p = false := by
    rw [phoneRegexMatch_eq_spec, h1, h2]
    rfl
  have hph : phoneCleanErrors (some p) ≠ [] := by
    simp [phoneCleanErrors, hne, hmatch]
  refine ⟨hph, ?_, by decide, by decide, by decide⟩
  intro name email
  simp only [customerCleanErrors]
  intro hcontra
  rcases List.append_eq_nil.mp hcontra with ⟨-, h2'⟩
  exact hph h2'

/-- C9 counterexample: BulkCreateCustomers on one valid and one
duplicate row returns BOTH a non-empty customers list and a non-empty
errors list, so the claim that every mutation's entity field is absent
whenever errors is non-empty is false. -/
theorem mutation_envelope_claim_cex :
    (bulkCreateCustomers demoStore [⟨"A", "a@x.com", some ""⟩, ⟨"B", "alice@x.com", some ""⟩]).2.customers ≠ [] ∧
    (bulkCreateCustomers demoStore [⟨"A", "a@x.com", some ""⟩, ⟨"B", "alice@x.com", some ""⟩]).2.errors ≠ [] := by
  decide

/-- C9 amended: for the three single-entity mutations (createCustomer,
createProduct, createOrder) and every input, the payload's errors list is
empty or the entity field is none — never both a populated entity and a
non-empty errors list; bulkCreateCustomers may return both (partial
success). -/
theorem single_mutation_envelope (s : Store) (ci : CustomerInput) (pin : ProductInput) (oin : OrderInput) (now : Nat) :
    ((createCustomer s ci).2.errors = [] ∨ (createCustomer s ci).2.customer = none) ∧
    ((createProduct s pin).2.errors = [] ∨ (createProduct s pin).2.product = none) ∧
    ((createOrder s oin now).2.errors = [] ∨ (createOrder s oin now).2.order = none) := by
  refine ⟨?_, ?_, ?_⟩
  · simp only [createCustomer]
    split
    · simp
    · split
      · simp
      · simp
  · simp only [createProduct]
    split
    · simp
    · split
      · simp
      · split
        · simp
        · simp
  · simp only [createOrder]
    split
    · simp
    · split
      · simp
      · split
        · simp
        · simp

/-- C3 evidence: `CreateOrder.mutate` passes the supplied orderDate (5)
to the Order constructor, but because `Order.order_date` is declared with
`auto_now_add=True` the persisted row carries the current time (99)
instead — the supplied date is silently discarded. -/
theorem createOrder_order_date_overridden :
    (createOrder demoStore ⟨1, [1], some 5⟩ 99).2.order = some ⟨1, 1, [1], 1000, 99⟩ ∧
    requestedOrderDate ⟨1, [1], some 5⟩ 99 = 5 ∧
    (∀ o ∈ resolveAllOrders (createOrder demoStore ⟨1, [1], some 5⟩ 99).1, o.order_date = 99) := by
  decide

/-- C2 evidence: with no transaction around `order.save()` and
`order.products.set(...)`, the first committed state of a successful
CreateOrder contains an Order row with zero associated products, so a
failure between the two statements leaves that invalid state behind. -/
theorem createOrder_commit_gap :
    ∃ st ∈ createOrderCommits demoStore ⟨1, [1, 2], none⟩ 42, ∃ o ∈ st.orders, o.productIds = [] := by
  decide

/-- C8 counterexample: the price 0.005 (coefficient 5, three decimal
places) is positive and stock is omitted, yet CreateProduct fails — the
persistence layer rejects more than 2 decimal places — so the claim that
every positive price with omitted stock succeeds is false. -/
theorem createProduct_positive_price_cex :
    Decimal.isNonpos ⟨5, 3⟩ = false ∧
    (createProduct demoStore ⟨"Tiny", ⟨5, 3⟩, none⟩).2.product = none ∧
    (createProduct demoStore ⟨"Tiny", ⟨5, 3⟩, none⟩).2.errors ≠ [] ∧
    (createProduct demoStore ⟨"Tiny", ⟨5, 3⟩, none⟩).1 = demoStore := by
  decide

/-- C8 amended: a non-positive price is rejected with the price error and
nothing is created; a positive price that fits the declared decimal
column (at most 2 decimal places, at most 8 digits before the point),
with a valid name and an omitted or in-range non-negative stock, yields a
product retrievable via the product list query, with stock defaulting to
0 when omitted. -/
theorem createProduct_amended (s : Store) (input : ProductInput) :
    (input.price.isNonpos = true →
      (createProduct s input).2.errors = ["Price must be positive"] ∧
      (createProduct s input).2.product = none ∧
      (createProduct s input).1 = s) ∧
    (0 < input.price.coeff → input.price.places ≤ 2 →
      |input.price.coeff| < (10 : Int) ^ (8 + input.price.places) →
      input.name ≠ "" → input.name.length ≤ 255 →
      (∀ st, input.stock = some st → 0 ≤ st ∧ st ≤ 2147483647) →
      ∃ p, (createProduct s input).2.product = some p ∧
        p ∈ resolveAllProducts (createProduct s input).1 ∧
        p.price = input.price.toCents ∧
        p.stock = input.stock.getD 0 ∧
        p.name = input.name ∧
        (createProduct s input).2.errors = []) := by
  constructor
  · intro h
    simp [createProduct, h]
  · intro hpos hplaces hwhole hname hlen hstock
    have hnp : input.price.isNonpos = false := by
      simp only [Decimal.isNonpos, decide_eq_false_iff_not, not_le]
      exact hpos
    have hstockneg : (match input.stock with | some st => decide (st < 0) | none => false) = false := by
      cases h : input.stock with
      | none => rfl
      | some st =>
          have := hstock st h
          simp only [decide_eq_false_iff_not, not_lt]
          omega
    have hpow2 : (10 : Int) ^ input.price.places ≤ 10 ^ (2 : Nat) :=
      pow_le_pow_right₀ (by norm_num) hplaces
    have hmin : ¬ (input.price.coeff * 100 < (10 : Int) ^ input.price.places) := by
      have h100 : (100 : Int) ≤ input.price.coeff * 100 := by nlinarith
      have : (10 : Int) ^ (2 : Nat) = 100 := by norm_num
      omega
    have hpow10 : (10 : Int) ^ (8 + input.price.places) ≤ 10 ^ (10 : Nat) :=
      pow_le_pow_right₀ (by norm_num) (by omega)
    have h10num : (10 : Int) ^ (10 : Nat) = 10000000000 := by norm_num
    have hdig : |input.price.coeff| < 10000000000 := by omega
    have hpl : ¬ (input.price.places > 2) := by omega
    have hwh : ¬ (|input.price.coeff| ≥ (10 : Int) ^ (8 + input.price.places)) := by omega
    have hst0 : ¬ (input.stock.getD 0 < 0) := by
      cases h : input.stock with
      | none => simp
      | some st => have := hstock st h; simp; omega
    have hst1 : ¬ (input.stock.getD 0 > 2147483647) := by
      cases h : input.stock with
      | none => simp
      | some st => have := hstock st h; simp; omega
    have herrs : productCleanErrors input.name input.price (input.stock.getD 0) = [] := by
      simp [productCleanErrors, hname, hlen, hmin, hdig, hpl, hwh, hst0, hst1]
    refine ⟨⟨s.nextProductId, input.name, input.price.toCents, input.stock.getD 0⟩, ?_, ?_, rfl, rfl, rfl, ?_⟩
    · simp [createProduct, hnp, hstockneg, herrs]
    · simp [createProduct, hnp, hstockneg, herrs, resolveAllProducts]
    · simp [createProduct, hnp, hstockneg, herrs]

/-- Witness for C8's amended theorem: the spec's Phone product (price
199.99, stock 20) succeeds, and price -5 fails with the price error. -/
theorem createProduct_amended_witness :
    (∃ p, (createProduct demoStore ⟨"Phone", ⟨19999, 2⟩, some 20⟩).2.product = some p ∧
      p ∈ resolveAllProducts (createProduct demoStore ⟨"Phone", ⟨19999, 2⟩, some 20⟩).1 ∧
      p.price = Decimal.toCents ⟨19999, 2⟩ ∧
      p.stock = (some (20 : Int)).getD 0 ∧
      p.name = "Phone" ∧
      (createProduct demoStore ⟨"Phone", ⟨19999, 2⟩, some 20⟩).2.errors = []) ∧
    ((createProduct demoStore ⟨"Bad", ⟨-5, 0⟩, none⟩).2.errors = ["Price must be positive"] ∧
      (createProduct demoStore ⟨"Bad", ⟨-5, 0⟩, none⟩).2.product = none ∧
      (createProduct demoStore ⟨"Bad", ⟨-5, 0⟩, none⟩).1 = demoStore) :=
  ⟨(createProduct_amended demoStore ⟨"Phone", ⟨19999, 2⟩, some 20⟩).2
      (by decide) (by decide) (by decide) (by decide) (by decide)
      (by intro st hst; injection hst with h; subst h; constructor <;> decide),
   (createProduct_amended demoStore ⟨"Bad", ⟨-5, 0⟩, none⟩).1 (by decide)⟩

/-- C7: once the customer is resolved and the resolved product set is
nonempty, CreateOrder fails with the product-id-mismatch error exactly
when the count of resolved products differs from the count of requested
ids, and in that case no Order record is created and the store is
unchanged. -/
theorem createOrder_product_id_mismatch (s : Store) (input : OrderInput) (now : Nat) (c : Customer)
    (hc : s.customers.find? (fun x => x.id == input.customerId) = some c)
    (hne : resolvedProducts s input ≠ []) :
    ((createOrder s input now).2.errors = ["One or more product IDs are invalid"] ↔
      (resolvedProducts s input).length ≠ input.productIds.length) ∧
    ((resolvedProducts s input).length ≠ input.productIds.length →
      (createOrder s input now).2.order = none ∧ (createOrder s input now).1 = s) := by
  by_cases hlen : (resolvedProducts s input).length = input.productIds.length
  · constructor
    · simp [createOrder, hc, hne, hlen]
    · intro h
      exact absurd hlen h
  · constructor
    · simp [createOrder, hc, hne, hlen]
    · intro h
      simp [createOrder, hc, hne, hlen]

/-- Witness for C7 at the spec's scenario: one valid and one nonexistent
product id. -/
theorem createOrder_product_id_mismatch_witness :
    ((createOrder demoStore ⟨1, [1, 99], none⟩ 42).2.errors = ["One or more product IDs are invalid"] ↔
      (resolvedProducts demoStore ⟨1, [1, 99], none⟩).length ≠ ([1, 99] : List Nat).length) ∧
    ((resolvedProducts demoStore ⟨1, [1, 99], none⟩).length ≠ ([1, 99] : List Nat).length →
      (createOrder demoStore ⟨1, [1, 99], none⟩ 42).2.order = none ∧
      (createOrder demoStore ⟨1, [1, 99], none⟩ 42).1 = demoStore) :=
  createOrder_product_id_mismatch demoStore ⟨1, [1, 99], none⟩ 42
    ⟨1, "Alice", "alice@x.com", some ""⟩ (by decide) (by decide)

/-- C1: every successful CreateOrder yields an Order whose total_amount
is the sum of the prices of the resolved products and whose associated
product id set is exactly the requested id set (stores keep product ids
distinct). -/
theorem createOrder_total_and_product_set (s : Store) (input : OrderInput) (now : Nat) (o : Order)
    (hnodup : (s.products.map Product.id).Nodup)
    (hsucc : (createOrder s input now).2.order = some o) :
    o.total_amount = ((resolvedProducts s input).map Product.price).sum ∧
    (∀ x, x ∈ o.productIds ↔ x ∈ input.productIds) := by
  simp only [createOrder] at hsucc
  split at hsucc
  · exact absurd hsucc (by simp)
  · split at hsucc
    · exact absurd hsucc (by simp)
    · split at hsucc
      · exact absurd hsucc (by simp)
      · rename_i hne hlen'
        have hlen : (resolvedProducts s input).length = input.productIds.length := by
          simpa using hlen'
        injection hsucc with ho
        subst ho
        refine ⟨rfl, ?_⟩
        have hRsub : ((resolvedProducts s input).map Product.id) ⊆ input.productIds := by
          intro x hx
          obtain ⟨p, hp, rfl⟩ := List.mem_map.mp hx
          have hcontains := (List.mem_filter.mp hp).2
          exact List.elem_iff.mp hcontains
        have hRnodup : ((resolvedProducts s input).map Product.id).Nodup := by
          have hsub : List.Sublist ((resolvedProducts s input).map Product.id)
              (s.products.map Product.id) :=
            List.Sublist.map Product.id (List.filter_sublist s.products)
          exact hnodup.sublist hsub
        have hRlen : ((resolvedProducts s input).map Product.id).length = input.productIds.length := by
          simpa using hlen
        have hperm : ((resolvedProducts s input).map Product.id).Perm input.productIds :=
          (hRnodup.subperm hRsub).perm_of_length_le (le_of_eq hRlen.symm)
        intro x
        exact hperm.mem_iff

/-- Witness for C1: ordering both demo products gives total 3050 cents
and the product set {1, 2}. -/
theorem createOrder_total_and_product_set_witness :
    (⟨1, 1, [1, 2], 3050, 42⟩ : Order).total_amount =
      ((resolvedProducts demoStore ⟨1, [1, 2], none⟩).map Product.price).sum ∧
    (∀ x, x ∈ (⟨1, 1, [1, 2], 3050, 42⟩ : Order).productIds ↔ x ∈ ([1, 2] : List Nat)) :=
  createOrder_total_and_product_set demoStore ⟨1, [1, 2], none⟩ 42 ⟨1, 1, [1, 2], 3050, 42⟩
    (by decide) (by decide)

/-- Helper: each row of the bulk loop contributes exactly one outcome —
one created customer or one error string — and created customers keep
input order (their email list is a sublist of the input email list). -/
theorem bulkGo_spec (s : Store) (rows : List CustomerInput) :
    (bulkGo s rows).2.1.length + (bulkGo s rows).2.2.length = rows.length ∧
    List.Sublist ((bulkGo s rows).2.1.map Customer.email) (rows.map CustomerInput.email) := by
  induction rows generalizing s with
  | nil => simp [bulkGo]
  | cons r rest ih =>
      simp only [bulkGo]
      split
      · have h := ih s
        refine ⟨?_, ?_⟩
        · simp only [List.length_cons, List.map_cons]
          omega
        · simp only [List.map_cons]
          exact List.Sublist.cons r.email h.2
      · split
        · have h := ih { s with
            customers := s.customers ++ [⟨s.nextCustomerId, r.name, r.email, r.phone⟩],
            nextCustomerId := s.nextCustomerId + 1 }
          refine ⟨?_, ?_⟩
          · simp only [List.length_cons]
            omega
          · simp only [List.map_cons]
            exact List.Sublist.cons₂ r.email h.2
        · have h := ih s
          refine ⟨?_, ?_⟩
          · simp only [List.length_cons, List.map_cons]
            omega
          · simp only [List.map_cons]
            exact List.Sublist.cons r.email h.2

/-- C10: for every input list, the number of returned customers plus the
number of returned errors equals the number of input rows, and the
created customers follow input order. -/
theorem bulkCreateCustomers_row_outcomes (s : Store) (input : List CustomerInput) :
    (bulkCreateCustomers s input).2.customers.length +
      (bulkCreateCustomers s input).2.errors.length = input.length ∧
    List.Sublist ((bulkCreateCustomers s input).2.customers.map Customer.email)
      (input.map CustomerInput.email) := by
  have h := bulkGo_spec s input
  exact ⟨h.1, h.2⟩

/-- C4: for a batch of a valid fresh row A, a row B whose email is
already stored, and a valid fresh row C (with an email different from
A's), BulkCreateCustomers creates exactly A and C in order, reports
exactly one error referencing B's email with its reason, and grows the
stored customer collection by exactly 2. -/
theorem bulkCreateCustomers_partial_failure (s : Store) (a b c : CustomerInput)
    (haF : s.customers.any (fun x => x.email == a.email) = false)
    (haV : customerCleanErrors a.name a.email a.phone = [])
    (hbD : s.customers.any (fun x => x.email == b.email) = true)
    (hcF : s.customers.any (fun x => x.email == c.email) = false)
    (hcA : c.email ≠ a.email)
    (hcV : customerCleanErrors c.name c.email c.phone = []) :
    (bulkCreateCustomers s [a, b, c]).2.customers.map Customer.email = [a.email, c.email] ∧
    (bulkCreateCustomers s [a, b, c]).2.errors = [b.email ++ ": Email already exists"] ∧
    (bulkCreateCustomers s [a, b, c]).1.customers.length = s.customers.length + 2 := by
  have hb1 : (s.customers ++ [(⟨s.nextCustomerId, a.name, a.email, a.phone⟩ : Customer)]).any
      (fun x => x.email == b.email) = true := by
    rw [List.any_append, hbD, Bool.true_or]
  have hc1 : (s.customers ++ [(⟨s.nextCustomerId, a.name, a.email, a.phone⟩ : Customer)]).any
      (fun x => x.email == c.email) = false := by
    rw [List.any_append, hcF, Bool.false_or]
    simp only [List.any_cons, List.any_nil, Bool.or_false]
    exact beq_eq_false_iff_ne.mpr fun h => hcA h.symm
  simp [bulkCreateCustomers, bulkGo, haF, haV, hb1, hc1, hcV]

/-- Witness for C4 on the development store: rows A and C are fresh and
valid, row B repeats the stored email. -/
theorem bulkCreateCustomers_partial_failure_witness :
    (bulkCreateCustomers demoStore
        [⟨"A", "a@x.com", some ""⟩, ⟨"B", "alice@x.com", some ""⟩, ⟨"C", "c@x.com", some ""⟩]).2.customers.map
        Customer.email = ["a@x.com", "c@x.com"] ∧
    (bulkCreateCustomers demoStore
        [⟨"A", "a@x.com", some ""⟩, ⟨"B", "alice@x.com", some ""⟩, ⟨"C", "c@x.com", some ""⟩]).2.errors =
      ["alice@x.com" ++ ": Email already exists"] ∧
    (bulkCreateCustomers demoStore
        [⟨"A", "a@x.com", some ""⟩, ⟨"B", "alice@x.com", some ""⟩, ⟨"C", "c@x.com", some ""⟩]).1.customers.length =
      demoStore.customers.length + 2 :=
  bulkCreateCustomers_partial_failure demoStore
    ⟨"A", "a@x.com", some ""⟩ ⟨"B", "alice@x.com", some ""⟩ ⟨"C", "c@x.com", some ""⟩
    (by decide) (by decide) (by decide) (by decide) (by decide) (by decide)

/-- Witness for C5's amended theorem at the rejected literal "12345". -/
theorem phone_validation_amended_witness :
    phoneCleanErrors (some "12345") ≠ [] ∧
    (∀ name email, customerCleanErrors name email (some "12345") ≠ []) ∧
    phoneCleanErrors (some "+1234567890") = [] ∧
    phoneCleanErrors (some "123-456-7890") = [] ∧
    phoneCleanErrors (some "12345") ≠ [] :=
  phone_validation_amended "12345" (by decide) (by decide) (by decide)

end Crm
